import Mathlib

/-!
Verification of the Hiring Partner chatbot (app.py).

This file is a shallow embedding of the conversational core of the
repository: the stage machine (chat_logic, app.py lines 563-625), the
exit-command handling, the chat input gate (lines 633-642), the job
recommendation builder (get_job_recommendations, lines 101-342), the
generation gateway (generate_llm_response and the two prompt builders,
lines 79-98), and the report assembly (export_pdf, lines 345-379, and the
"Export & Email Full Report" handler, lines 662-669).

Modelling conventions:
- Python strings are Lean String (a list of characters); Python's
  str.lower / str.title / str.strip are modelled on their ASCII fragment,
  which covers every comparison the program performs (the exit words and
  the position keywords are ASCII).
- The external LLM call (client.chat.completions.create) is an oracle
  parameter of type String -> Except String String: ok is the returned
  message content, error carries str(e) of the raised exception.
- st.session_state is the SessionState structure; the transcript
  (st.session_state.messages) is pure UI surface and is not modelled
  (no claim concerns it).
- An uncaught Python exception escaping chat_logic (the KeyError that
  info["Position"] would raise if the field were absent) is modelled by
  reply = none; mutations textually preceding the raise are kept, as in
  the source.
- chat_logic additionally returns the list of prompts passed to
  generate_llm_response during the turn (llm_calls), instrumenting the
  call structure of the source so that "exactly two generation calls"
  is expressible.
- Python try/except blocks whose try body is total in this embedding
  (no modelled operation can raise) are translated as the try body; the
  except arm is dead code here and is noted where it occurs.
-/

/-- ASCII lower-casing of one character: the fragment of Python
str.lower relevant to this program (exit words and keyword matching are
ASCII). -/
def pyLowerChar (c : Char) : Char :=
  if 65 ≤ c.toNat && c.toNat ≤ 90 then Char.ofNat (c.toNat + 32) else c

/-- Python s.lower() on its ASCII fragment. -/
def pyLower (s : String) : String := ⟨s.data.map pyLowerChar⟩

/-- Whether the pattern (first argument) starts the text (second
argument); helper for the Python substring test. -/
def charsStartWith : List Char → List Char → Bool
  | [], _ => true
  | _ :: _, [] => false
  | a :: as, b :: bs => a == b && charsStartWith as bs

/-- Whether the pattern occurs anywhere in the text; helper for the
Python substring test. -/
def charsOccur : List Char → List Char → Bool
  | pat, [] => pat.isEmpty
  | pat, c :: rest => charsStartWith pat (c :: rest) || charsOccur pat rest

/-- Python `needle in hay` for strings (substring containment). -/
def strContains (hay needle : String) : Bool := charsOccur needle.data hay.data

/-- Helper for pyReplace: fuel-driven scan; the fuel starts at the
text length, which bounds the number of scan steps. -/
def pyReplaceGo (old new : List Char) : Nat → List Char → List Char
  | _, [] => []
  | 0, text => text
  | fuel + 1, c :: rest =>
    if !old.isEmpty && charsStartWith old (c :: rest) then
      new ++ pyReplaceGo old new fuel ((c :: rest).drop old.length)
    else c :: pyReplaceGo old new fuel rest

/-- Python s.replace(old, new) for non-empty old: replaces every
non-overlapping occurrence left to right (every replace in this program
has a non-empty pattern). -/
def pyReplace (s old new : String) : String :=
  ⟨pyReplaceGo old.data new.data s.data.length s.data⟩

/-- Python s.split(sep) for a one-character separator, on lists of
characters. Always returns at least one piece ("".split(c) == [""]). -/
def pySplitChars (sep : Char) : List Char → List (List Char)
  | [] => [[]]
  | c :: rest =>
    match pySplitChars sep rest with
    | [] => [[]]
    | cur :: more => if c == sep then [] :: cur :: more else (c :: cur) :: more

/-- Python s.split("\n"), as used on the generated question blocks
(app.py lines 610-611). -/
def pySplitNewline (s : String) : List String :=
  (pySplitChars '\n' s.data).map (fun cs => ⟨cs⟩)

/-- Characters Python's re \s and str.strip treat as whitespace
(ASCII fragment). -/
def isPySpace (c : Char) : Bool :=
  c == ' ' || c == '\t' || c == '\n' || c == '\r' || c == '\x0b' || c == '\x0c'

/-- Python s.strip() (ASCII whitespace fragment). -/
def pyStrip (s : String) : String :=
  ⟨((s.data.dropWhile isPySpace).reverse.dropWhile isPySpace).reverse⟩

/-- Helper for pyTitle: the Bool records whether the previous character
was alphabetic. -/
def pyTitleGo : Bool → List Char → List Char
  | _, [] => []
  | prevAlpha, c :: rest =>
    if c.isAlpha then
      (if prevAlpha then pyLowerChar c else c.toUpper) :: pyTitleGo true rest
    else
      c :: pyTitleGo false rest

/-- Python s.title() (ASCII fragment): first letter of each
alphabetic run upper-cased, the rest lower-cased. -/
def pyTitle (s : String) : String := ⟨pyTitleGo false s.data⟩

/-- Python s[:n] (non-negative slice). -/
def pyTake (s : String) (n : Nat) : String := ⟨s.data.take n⟩

/-- Helper for pyRFind: scans left to right keeping the last index at
which the target occurred. -/
def pyRFindGo : List Char → Char → Nat → Int → Int
  | [], _, _, best => best
  | c :: rest, t, i, best => pyRFindGo rest t (i + 1) (if c == t then (i : Int) else best)

/-- Python s.rfind(c): index of the rightmost occurrence, -1 if none. -/
def pyRFind (s : String) (c : Char) : Int := pyRFindGo s.data c 0 (-1)

/-- Tag remover for clean_html (app.py line 113, re.sub of matches of a
tag pattern): on a left angle bracket, if a closing bracket follows, the
bracketed run is dropped; an unclosed bracket is kept literally. The
first argument buffers (reversed) the characters seen since an open
bracket. -/
def removeTagsGo : Option (List Char) → List Char → List Char
  | none, [] => []
  | some buf, [] => '<' :: buf.reverse
  | none, c :: rest =>
    if c == '<' then removeTagsGo (some []) rest else c :: removeTagsGo none rest
  | some buf, c :: rest =>
    if c == '>' then removeTagsGo none rest else removeTagsGo (some (c :: buf)) rest

/-- Output for a run of n consecutive dots under clean_html (app.py
line 115): runs of two or more become a dot and a space. -/
def emitDots : Nat → List Char
  | 0 => []
  | 1 => ['.']
  | _ + 2 => ['.', ' ']

/-- Dot-run collapsing for clean_html; the counter is the number of
pending dots. -/
def collapseDotsGo : Nat → List Char → List Char
  | n, [] => emitDots n
  | n, c :: rest =>
    if c == '.' then collapseDotsGo (n + 1) rest
    else emitDots n ++ c :: collapseDotsGo 0 rest

/-- Output for a run of n consecutive dashes under clean_html (app.py
line 116): runs of two or more become space-dash-space. -/
def emitDashes : Nat → List Char
  | 0 => []
  | 1 => ['-']
  | _ + 2 => [' ', '-', ' ']

/-- Dash-run collapsing for clean_html. -/
def collapseDashesGo : Nat → List Char → List Char
  | n, [] => emitDashes n
  | n, c :: rest =>
    if c == '-' then collapseDashesGo (n + 1) rest
    else emitDashes n ++ c :: collapseDashesGo 0 rest

/-- Whitespace-run collapsing for clean_html (app.py line 118): runs of
whitespace become a single space. The Bool records whether we are inside
a whitespace run. -/
def collapseSpacesGo : Bool → List Char → List Char
  | _, [] => []
  | inRun, c :: rest =>
    if isPySpace c then
      (if inRun then collapseSpacesGo true rest else ' ' :: collapseSpacesGo true rest)
    else c :: collapseSpacesGo false rest

/-- clean_html (app.py lines 108-119): strips bracketed tags, collapses
dot runs, dash runs and whitespace runs, then strips. The isinstance
check of the source is vacuous here since the argument is a string. -/
def clean_html (text : String) : String :=
  if text = "" then ""
  else
    pyStrip ⟨collapseSpacesGo false (collapseDashesGo 0 (collapseDotsGo 0
      (removeTagsGo none text.data)))⟩

/-- The URL encoding used for the search links (app.py lines 129-130):
spaces to plus signs, commas to %2C. -/
def urlEncode (s : String) : String := pyReplace (pyReplace s " " "+") "," "%2C"

/-- Indeed search link (app.py line 133). -/
def indeed_search (position location : String) : String :=
  "https://indeed.com/jobs?q=" ++ urlEncode position ++ "&l=" ++ urlEncode location

/-- LinkedIn search link (app.py line 134). -/
def linkedin_search (position location : String) : String :=
  "https://linkedin.com/jobs/search?keywords=" ++ urlEncode position ++ "&location=" ++
    urlEncode location

/-- Glassdoor search link (app.py line 135). -/
def glassdoor_search (position location : String) : String :=
  "https://glassdoor.com/Job/jobs.htm?sc.keyword=" ++ urlEncode position ++
    "&locT=C&locKeyword=" ++ urlEncode location

/-- ZipRecruiter search link (app.py line 136). -/
def ziprecruiter_search (position location : String) : String :=
  "https://ziprecruiter.com/jobs/search?q=" ++ urlEncode position ++ "&l=" ++ urlEncode location

/-- The generic Google job-search link, built identically at app.py
lines 239, 291, 307 and 336: a web search for "jobs " plus the
position (spaces encoded as plus signs). -/
def googleJobsLink (position : String) : String :=
  "https://www.google.com/search?q=jobs+" ++ pyReplace position " " "+"

/-- One mock job record: the six keys every literal dictionary in
generate_quality_jobs carries (app.py lines 149-240). -/
structure Job where
  title : String
  company : String
  location : String
  salary : String
  snippet : String
  link : String
deriving Repr, DecidableEq

/-- Keywords selecting the developer/tech branch (app.py line 148). -/
def tech_keywords : List String :=
  ["developer", "engineer", "programming", "software", "web", "full stack",
   "frontend", "backend"]

/-- Keywords selecting the data branch (app.py line 176). -/
def data_keywords : List String :=
  ["data", "analyst", "scientist", "machine learning", "ai", "analytics"]

/-- The three developer/tech mock jobs (app.py lines 149-174). -/
def tech_mock_jobs (position location : String) : List Job :=
  [{ title := pyTitle position ++ " Opportunities",
     company := "Multiple Tech Companies",
     location := location,
     salary := "$85,000 - $125,000 per year (typical range)",
     snippet := "Browse software development opportunities on LinkedIn. Their platform features positions from startups to Fortune 500 companies.",
     link := linkedin_search position location },
   { title := pyTitle position ++ " - Senior Roles",
     company := "Various Tech Employers",
     location := location,
     salary := "$120,000+ (typical for senior roles)",
     snippet := "Indeed features numerous developer roles requiring technical expertise. Filter by salary, company size, and more.",
     link := indeed_search position location },
   { title := pyTitle position ++ " - Entry & Mid-Level",
     company := "Tech Companies Hiring Now",
     location := location,
     salary := "$65,000 - $110,000 per year (typical range)",
     snippet := "Find jobs for all experience levels on ZipRecruiter. Their platform offers positions with various tech stacks and company cultures.",
     link := ziprecruiter_search position location }]

/-- The three data mock jobs (app.py lines 177-202). -/
def data_mock_jobs (position location : String) : List Job :=
  [{ title := pyTitle position ++ " Roles",
     company := "Top Tech Companies",
     location := location,
     salary := "$95,000 - $135,000 per year (typical range)",
     snippet := "Explore data science and analytics roles on Glassdoor. Review employee ratings and salary information.",
     link := glassdoor_search position location },
   { title := pyTitle position ++ " - Remote Options",
     company := "Various Tech Employers",
     location := location ++ " & Remote",
     salary := "$90,000 - $150,000 per year (typical range)",
     snippet := "Find flexible data positions on LinkedIn. Many companies now embrace remote work for data professionals.",
     link := linkedin_search position location },
   { title := pyTitle position ++ " - All Levels",
     company := "Multiple Organizations",
     location := location,
     salary := "$75,000 - $180,000 based on experience",
     snippet := "Indeed lists numerous data positions from entry-level to director roles. Filter by company, job type, and experience level.",
     link := indeed_search position location }]

/-- The three mock jobs of the remaining branch, commented "Other
positions (sales, marketing, etc.)" in the source (app.py lines
204-230). -/
def other_mock_jobs (position location : String) : List Job :=
  [{ title := pyTitle position ++ " - Latest Listings",
     company := "Multiple Employers",
     location := location,
     salary := "Varies by employer",
     snippet := "Indeed features numerous positions matching your search criteria. Filter results to find your ideal match.",
     link := indeed_search position location },
   { title := pyTitle position ++ " Opportunities",
     company := "Various Organizations",
     location := location,
     salary := "Competitive based on experience",
     snippet := "Browse LinkedIn's extensive job listings for this position. Connect with recruiters and companies directly.",
     link := linkedin_search position location },
   { title := pyTitle position ++ " - All Levels",
     company := "Multiple Companies",
     location := location,
     salary := "Varies by experience level",
     snippet := "ZipRecruiter offers a wide range of opportunities from entry-level to senior positions.",
     link := ziprecruiter_search position location }]

/-- The guaranteed catch-all listing appended unconditionally (app.py
lines 233-240). -/
def catch_all_job (position location : String) : Job :=
  { title := "Search: " ++ pyTitle position ++ " Jobs",
    company := "Job Search Engines",
    location := location ++ " and surrounding areas",
    salary := "All salary ranges",
    snippet := "Access multiple job listings matching your criteria on major job search platforms. Compare opportunities and apply directly.",
    link := googleJobsLink position }

/-- Whether the lower-cased position matches the developer/tech keyword
set (app.py line 148). -/
def is_tech_position (position_lower : String) : Bool :=
  tech_keywords.any (fun t => strContains position_lower t)

/-- Whether the lower-cased position matches the data keyword set
(app.py line 176). -/
def is_data_position (position_lower : String) : Bool :=
  data_keywords.any (fun t => strContains position_lower t)

/-- generate_quality_jobs (app.py lines 122-242): picks one of three
mock-job template sets by keyword match on the lower-cased position,
then always appends the catch-all listing. The try/except around the
URL encoding (lines 127-142) cannot take its except arm here: every
operation of the try body is total in this embedding. -/
def generate_quality_jobs (position location : String) : List Job :=
  (if is_tech_position (pyLower position) then tech_mock_jobs position location
   else if is_data_position (pyLower position) then data_mock_jobs position location
   else other_mock_jobs position location) ++ [catch_all_job position location]

/-- Formatting of one job into a listing string (the try body of the
loop at app.py lines 250-302): cleans each field, substitutes defaults
for short salaries and snippets, truncates long snippets, repairs
missing or placeholder links, and renders the six-line listing.
The dictionary fallbacks of the source (description before snippet,
companyName before company, url and jobUrl before link) collapse because
every record carries exactly the six keys of Job. The except arms
(lines 303-326) are dead here: the try body is total. -/
def format_job (position location : String) (job : Job) : String :=
  let title := clean_html job.title
  let company := clean_html job.company
  let job_location := clean_html job.location
  let salary0 := clean_html job.salary
  let salary := if salary0 = "" || salary0.length < 3 then "Competitive salary" else salary0
  let snippet0 := clean_html job.snippet
  let snippet1 :=
    if snippet0 = "" || snippet0.length < 10 then
      if strContains (pyLower position) "developer" || strContains (pyLower position) "engineer" then
        "Join our development team working on exciting projects. This role requires technical expertise and problem-solving skills."
      else if strContains (pyLower position) "sales" || strContains (pyLower position) "marketing" then
        "Help grow our business through strategic sales initiatives. Strong communication skills and results-oriented mindset required."
      else
        "Join our team of professionals in a collaborative work environment with opportunities for growth and development."
    else snippet0
  let snippet :=
    if snippet1.length > 150 then
      let cutoff := 150
      let last_period := pyRFind (pyTake snippet1 cutoff) '.'
      let last_space := pyRFind (pyTake snippet1 cutoff) ' '
      let break_point := if last_period > 0 then last_period else last_space
      if break_point > 0 then pyTake snippet1 (break_point.toNat + 1) ++ "..."
      else pyTake snippet1 cutoff ++ "..."
    else snippet1
  let link0 := job.link
  let link :=
    if link0 = "" || link0 = "#" || strContains link0 "example.com" then googleJobsLink position
    else link0
  ("🔹 **" ++ title ++ "**\n" ++ "🏢 " ++ company ++ "\n" ++ "📍 " ++ job_location ++
      "\n" ++ "💰 " ++ salary ++ "\n" ++ "📝 " ++ snippet ++ "\n") ++
    ("🔗 [Apply Here](" ++ link ++ ")")

/-- get_job_recommendations (app.py lines 101-342): formats the first
five generated jobs; if nothing was formatted, falls back to a single
ultra-reliable listing (lines 329-337). The unused remote parameter of
the source is omitted; the Jooble API call is skipped by the source
itself (use_fallback is forced True, line 103). -/
def get_job_recommendations (position location : String) : List String :=
  let jobs := generate_quality_jobs position location
  let formatted := (jobs.take 5).map (format_job position location)
  if formatted = [] then
    ["🔹 **" ++ pyTitle position ++ " Jobs**\n" ++ "🏢 Multiple Employers\n" ++ "📍 " ++
      location ++ "\n" ++ "💰 Various salary ranges\n" ++
      "📝 Search for positions matching your skills and experience.\n" ++
      "🔗 [Search Jobs](" ++ googleJobsLink position ++ ")"]
  else formatted

/-- The candidate_info dictionary (app.py line 68): one optional string
per collected attribute, none meaning the key is absent. The Lean field
names stand for the dictionary keys "Full Name", "Email", "Phone",
"Experience", "Position", "Location", "Tech Stack". -/
structure CandidateInfo where
  fullName : Option String := none
  email : Option String := none
  phone : Option String := none
  experience : Option String := none
  position : Option String := none
  location : Option String := none
  techStack : Option String := none
deriving Repr, DecidableEq

/-- The per-session state held in st.session_state (app.py lines
62-76), without the transcript (messages), which is UI surface only. -/
structure SessionState where
  stage : String
  candidate_info : CandidateInfo
  tech_questions : List String
  code_questions : List String
  job_recommendations : List String
  end_chat : Bool
deriving Repr, DecidableEq

/-- The session state created on first load (app.py lines 62-76). -/
def initState : SessionState :=
  { stage := "greeting", candidate_info := {}, tech_questions := [],
    code_questions := [], job_recommendations := [], end_chat := false }

/-- The outcome of one chat_logic call: the updated session state, the
returned reply (none modelling an uncaught exception), and the prompts
passed to generate_llm_response during the call. -/
structure ChatResult where
  state : SessionState
  reply : Option String
  llm_calls : List String
deriving Repr, DecidableEq

/-- generate_llm_response (app.py lines 79-88) over the LLM oracle: the
returned completion text on success, and the visible error marker
string built from str(e) when the call raises. -/
def generate_llm_response (llm : String → Except String String) (prompt : String) : String :=
  match llm prompt with
  | .ok content => content
  | .error e => "⚠️ Error: " ++ e

/-- The prompt built by get_technical_questions (app.py lines 91-93). -/
def technical_questions_prompt (tech_stack : String) : String :=
  "You are an AI recruiter. Generate 3 concise technical interview questions EACH for the following technologies:\n" ++ tech_stack ++ "."

/-- The prompt built by get_coding_questions (app.py lines 96-98). -/
def coding_questions_prompt (tech_stack : String) : String :=
  "As a senior AI interviewer, suggest 3 challenging coding questions based on the following tech stack:\n" ++ tech_stack ++ "."

/-- The exit command list (app.py line 567). -/
def exit_commands : List String := ["exit", "quit", "bye", "end"]

/-- The exit test of app.py line 567: user_input.lower() in the exit
list. Note the source does not strip the input. -/
def isExitCommand (user_input : String) : Bool :=
  exit_commands.contains (pyLower user_input)

/-- chat_logic (app.py lines 563-625): the stage machine. Stage tags
are the strings of the source; each branch mirrors one elif arm. In the
questioning branch the source sets the stage, then reads
info["Position"] and info["Location"]; a missing key would raise
KeyError there, modelled as reply none with the already-performed stage
write kept. -/
def chat_logic (llm : String → Except String String) (s : SessionState)
    (user_input : String) : ChatResult :=
  let info := s.candidate_info
  let stage := s.stage
  if isExitCommand user_input then
    { state := { s with end_chat := true },
      reply := some "✅ Thank you for chatting with Hiring Partner! We’ll be in touch shortly. Goodbye! 👋",
      llm_calls := [] }
  else if stage = "greeting" then
    { state := { s with stage := "full_name" },
      reply := some "👋 Welcome! I’m your virtual assistant from Hiring Partner.\n\nCan I know your **full name**?",
      llm_calls := [] }
  else if stage = "full_name" then
    { state := { s with candidate_info := { info with fullName := some user_input },
                        stage := "email" },
      reply := some "📧 What’s your **email address**?",
      llm_calls := [] }
  else if stage = "email" then
    { state := { s with candidate_info := { info with email := some user_input },
                        stage := "phone" },
      reply := some "📞 Could you share your **phone number**?",
      llm_calls := [] }
  else if stage = "phone" then
    { state := { s with candidate_info := { info with phone := some user_input },
                        stage := "experience" },
      reply := some "🧑‍💻 How many **years of experience** do you have?",
      llm_calls := [] }
  else if stage = "experience" then
    { state := { s with candidate_info := { info with experience := some user_input },
                        stage := "position" },
      reply := some "🎯 What **position(s)** are you applying for?",
      llm_calls := [] }
  else if stage = "position" then
    { state := { s with candidate_info := { info with position := some user_input },
                        stage := "location" },
      reply := some "📍 Where are you **currently located**?",
      llm_calls := [] }
  else if stage = "location" then
    { state := { s with candidate_info := { info with location := some user_input },
                        stage := "tech_stack" },
      reply := some "💻 Please list your **tech stack** (e.g., Python, React, MongoDB)...",
      llm_calls := [] }
  else if stage = "tech_stack" then
    let tech_q := generate_llm_response llm (technical_questions_prompt user_input)
    let code_q := generate_llm_response llm (coding_questions_prompt user_input)
    { state := { s with candidate_info := { info with techStack := some user_input },
                        stage := "questioning",
                        tech_questions := pySplitNewline tech_q,
                        code_questions := pySplitNewline code_q },
      reply := some ("🧪 Here are technical questions:\n\n" ++ tech_q ++
        "\n\n💡 Coding questions:\n\n" ++ code_q),
      llm_calls := [technical_questions_prompt user_input, coding_questions_prompt user_input] }
  else if stage = "questioning" then
    match info.position, info.location with
    | some pos, some loc =>
      let recs := get_job_recommendations pos loc
      { state := { s with stage := "job_rec", job_recommendations := recs },
        reply := some ("💼 Based on your profile, here are some job recommendations:\n\n" ++
          String.intercalate "\n\n" recs),
        llm_calls := [] }
    | _, _ =>
      { state := { s with stage := "job_rec" }, reply := none, llm_calls := [] }
  else if stage = "job_rec" then
    { state := { s with stage := "done" },
      reply := some "✅ That’s all I need for now. Thank you for your time! You’ll hear from us soon. 🙏",
      llm_calls := [] }
  else
    { state := s,
      reply := some "❓ Hmm, I didn’t quite get that. Could you please rephrase?",
      llm_calls := [] }

/-- The chat input gate (app.py lines 633-640): when the chat has not
ended and the submitted prompt is non-empty (Python truthiness of
user_prompt), the input is fed to chat_logic; otherwise nothing
happens to the session state. -/
def step (llm : String → Except String String) (s : SessionState) (input : String) :
    SessionState :=
  if s.end_chat then s
  else if input = "" then s
  else (chat_logic llm s input).state

/-- A whole session: the gate applied over a list of submitted
inputs in order. -/
def runChat (llm : String → Except String String) (s : SessionState)
    (inputs : List String) : SessionState :=
  inputs.foldl (step llm) s

/-- A concrete LLM oracle that always fails, standing in for an
unreachable or quota-limited generation service in concrete runs. -/
def stubLLM : String → Except String String := fun _ => .error "service unavailable"

/-- The candidate_info items in dictionary insertion order (the
collection order of the stages), one key-value pair per present field;
this is the iteration of app.py line 352. -/
def profileItems (info : CandidateInfo) : List (String × String) :=
  (match info.fullName with | some v => [("Full Name", v)] | none => []) ++
  (match info.email with | some v => [("Email", v)] | none => []) ++
  (match info.phone with | some v => [("Phone", v)] | none => []) ++
  (match info.experience with | some v => [("Experience", v)] | none => []) ++
  (match info.position with | some v => [("Position", v)] | none => []) ++
  (match info.location with | some v => [("Location", v)] | none => []) ++
  (match info.techStack with | some v => [("Tech Stack", v)] | none => [])

/-- The textual content of the PDF assembled by export_pdf (app.py
lines 345-379), as the ordered list of text lines handed to the
rendering library: title, profile items, then the three headed
sections. PDF byte serialization itself is the external rendering
collaborator and is not modelled. -/
def export_pdf_lines (candidate_info : CandidateInfo)
    (tech_qs code_qs job_recs : List String) : List String :=
  ["Hiring Partner - Candidate Summary"] ++
  (profileItems candidate_info).map (fun kv => kv.1 ++ ": " ++ kv.2) ++
  ["Technical Questions"] ++ tech_qs.map (fun q => "- " ++ q) ++
  ["Coding Questions"] ++ code_qs.map (fun q => "- " ++ q) ++
  ["Recommended Jobs"] ++
  job_recs.map (fun job => pyReplace (pyReplace job "🔹" "-") "📍" "Location:")

/-- The three question-list arguments the report button handler passes
to export_pdf (app.py lines 664-669): Python x or [placeholder], i.e.
the stored list when non-empty, the placeholder list otherwise. -/
def export_report_args (s : SessionState) : List String × List String × List String :=
  ((if s.tech_questions = [] then ["No technical questions generated."] else s.tech_questions),
   (if s.code_questions = [] then ["No coding questions generated."] else s.code_questions),
   (if s.job_recommendations = [] then ["No job recommendations available."]
    else s.job_recommendations))

/-- The report content assembled by the Export & Email Full Report
handler for the current session state. -/
def export_report (s : SessionState) : List String :=
  export_pdf_lines s.candidate_info (export_report_args s).1 (export_report_args s).2.1
    (export_report_args s).2.2

/-- The report button handler's effect on the session (app.py lines
662-669): it only reads st.session_state and assembles the report; the
session state is returned unchanged. Email delivery is the external
delivery collaborator and is not modelled. -/
def export_handler (s : SessionState) : SessionState × List String :=
  (s, export_report s)

/-- Helper: the pieces of a character split are never the empty list. -/
theorem pySplitChars_ne_nil (sep : Char) (l : List Char) : pySplitChars sep l ≠ [] := by
  induction l with
  | nil => simp [pySplitChars]
  | cons c rest ih =>
    simp only [pySplitChars]
    rcases hres : pySplitChars sep rest with _ | ⟨cur, more⟩
    · exact absurd hres ih
    · simp only [hres]
      split <;> simp

/-- Helper: a Python line split is never empty. -/
theorem pySplitNewline_ne_nil (s : String) : pySplitNewline s ≠ [] := by
  simp [pySplitNewline, pySplitChars_ne_nil]

/-- One collected attribute of the candidate profile. -/
inductive ProfileField
  | fullName | email | phone | experience | position | location | techStack
deriving Repr, DecidableEq

/-- Writing one optional profile field with the raw input, as the
stages of chat_logic do. -/
def writeField : Option ProfileField → String → CandidateInfo → CandidateInfo
  | none, _, info => info
  | some .fullName, v, info => { info with fullName := some v }
  | some .email, v, info => { info with email := some v }
  | some .phone, v, info => { info with phone := some v }
  | some .experience, v, info => { info with experience := some v }
  | some .position, v, info => { info with position := some v }
  | some .location, v, info => { info with location := some v }
  | some .techStack, v, info => { info with techStack := some v }

/-- The linear transition table: stage tag, field written, next stage
tag, in the source's stage names. -/
def stage_table : List (String × Option ProfileField × String) :=
  [("greeting", none, "full_name"),
   ("full_name", some .fullName, "email"),
   ("email", some .email, "phone"),
   ("phone", some .phone, "experience"),
   ("experience", some .experience, "position"),
   ("position", some .position, "location"),
   ("location", some .location, "tech_stack"),
   ("tech_stack", some .techStack, "questioning"),
   ("questioning", none, "job_rec"),
   ("job_rec", none, "done")]

/-- C1: for every stage of the linear transition table (code tags:
greeting=Greeting, full_name=AskName, email=AskEmail, phone=AskPhone,
experience=AskExperience, position=AskPosition, location=AskLocation,
tech_stack=AskTechStack, questioning=Questioning, job_rec=
JobRecommendation) and every non-exit input string, including the empty
string, one chat_logic call sets the stage to exactly the mapped next
stage and makes the profile exactly the mapped single-field write (no
write at all for greeting, questioning and job_rec), touching no other
profile field. -/
theorem C1_linear_transition (llm : String → Except String String) (s : SessionState)
    (input : String) (hexit : isExitCommand input = false)
    (f : Option ProfileField) (next : String)
    (hrow : (s.stage, f, next) ∈ stage_table) :
    (chat_logic llm s input).state.stage = next ∧
    (chat_logic llm s input).state.candidate_info = writeField f input s.candidate_info := by
  simp only [stage_table, List.mem_cons, List.not_mem_nil, or_false, Prod.mk.injEq] at hrow
  rcases hrow with ⟨hst, hf, hnext⟩ | ⟨hst, hf, hnext⟩ | ⟨hst, hf, hnext⟩ | ⟨hst, hf, hnext⟩ |
    ⟨hst, hf, hnext⟩ | ⟨hst, hf, hnext⟩ | ⟨hst, hf, hnext⟩ | ⟨hst, hf, hnext⟩ |
    ⟨hst, hf, hnext⟩ | ⟨hst, hf, hnext⟩ <;>
  subst hf <;> subst hnext <;>
  rcases hp : s.candidate_info.position with _ | p <;>
  rcases hl : s.candidate_info.location with _ | q <;>
  simp [chat_logic, hexit, hst, hp, hl, writeField]

/-- C1 witness: at stage full_name with the non-exit input "Jane Doe"
the machine moves to email and writes exactly the Full Name field. -/
theorem C1_linear_transition_witness :
    isExitCommand "Jane Doe" = false ∧
    (chat_logic stubLLM { initState with stage := "full_name" } "Jane Doe").state.stage = "email" ∧
    (chat_logic stubLLM { initState with stage := "full_name" } "Jane Doe").state.candidate_info =
      writeField (some ProfileField.fullName) "Jane Doe"
        ({ initState with stage := "full_name" } : SessionState).candidate_info :=
  ⟨by decide,
    C1_linear_transition stubLLM { initState with stage := "full_name" } "Jane Doe" (by decide)
      (some ProfileField.fullName) "email" (by decide)⟩

/-- C2 counterexample: the claim requires the trimmed input " end " to
end the session with no field written, but chat_logic does not trim:
at stage full_name the input " end " leaves end_chat false and is
stored as the Full Name profile field. -/
theorem C2_counterexample :
    (chat_logic stubLLM { initState with stage := "full_name" } " end ").state.end_chat = false ∧
    (chat_logic stubLLM { initState with stage := "full_name" } " end ").state.candidate_info.fullName
      = some " end " :=
  ⟨rfl, rfl⟩

/-- C2 (amended): for every state and every input whose lower-cased
full text (the source does not trim) is one of exit, quit, bye, end,
chat_logic performs the exit check before any stage logic and returns
with only the ended flag set: no profile field is written, the stage is
unchanged, no generation call is made, and the goodbye reply is
returned; in particular a first-input exit leaves the profile empty. -/
theorem C2_exit_handling (llm : String → Except String String) (s : SessionState)
    (input : String) (h : isExitCommand input = true) :
    chat_logic llm s input =
      { state := { s with end_chat := true },
        reply := some "✅ Thank you for chatting with Hiring Partner! We’ll be in touch shortly. Goodbye! 👋",
        llm_calls := [] } := by
  simp [chat_logic, h]

/-- C2 witness: "quit" as the very first input ends the session
immediately and the profile is still empty afterwards. -/
theorem C2_exit_handling_witness :
    isExitCommand "quit" = true ∧
    chat_logic stubLLM initState "quit" =
      { state := { initState with end_chat := true },
        reply := some "✅ Thank you for chatting with Hiring Partner! We’ll be in touch shortly. Goodbye! 👋",
        llm_calls := [] } ∧
    ({ initState with end_chat := true } : SessionState).candidate_info = {} :=
  ⟨by decide, C2_exit_handling stubLLM initState "quit" (by decide), rfl⟩

/-- C10: an exit command sets only the ended flag: the stored stage
keeps its pre-exit value (there is no distinct ended stage tag), and it
is solely the end_chat flag checked by the input gate that blocks
further turns - when the flag is down and the input non-empty the gate
feeds the input to chat_logic unconditionally. -/
theorem C10_exit_only_flag (llm : String → Except String String)
    (s s2 s3 : SessionState) (input in2 in3 : String)
    (h : isExitCommand input = true) (h2 : s2.end_chat = true)
    (h3 : s3.end_chat = false) (hne : in3 ≠ "") :
    (chat_logic llm s input).state.stage = s.stage ∧
    (chat_logic llm s input).state = { s with end_chat := true } ∧
    step llm s2 in2 = s2 ∧
    step llm s3 in3 = (chat_logic llm s3 in3).state := by
  refine ⟨?_, ?_, ?_, ?_⟩
  · simp [chat_logic, h]
  · simp [chat_logic, h]
  · simp [step, h2]
  · simp [step, h3, hne]

/-- C10 witness: "exit" at stage phone keeps the stage value phone
while raising the flag; a raised flag makes the gate a no-op, and a
lowered flag lets "hello" through to chat_logic. -/
theorem C10_exit_only_flag_witness :
    (chat_logic stubLLM { initState with stage := "phone" } "exit").state.stage =
      ({ initState with stage := "phone" } : SessionState).stage ∧
    (chat_logic stubLLM { initState with stage := "phone" } "exit").state =
      { { initState with stage := "phone" } with end_chat := true } ∧
    step stubLLM { initState with end_chat := true } "hello" = { initState with end_chat := true } ∧
    step stubLLM initState "hello" = (chat_logic stubLLM initState "hello").state :=
  C10_exit_only_flag stubLLM { initState with stage := "phone" }
    { initState with end_chat := true } initState "exit" "hello" "hello"
    (by decide) rfl rfl (by decide)

/-- Helper: chat_logic raises the end flag exactly on exit commands
and preserves it otherwise. -/
theorem chat_logic_end_chat (llm : String → Except String String) (s : SessionState)
    (input : String) :
    (chat_logic llm s input).state.end_chat = (s.end_chat || isExitCommand input) := by
  unfold chat_logic
  by_cases h : isExitCommand input = true
  · rw [if_pos h, h, Bool.or_true]
  · have h2 : isExitCommand input = false := Bool.not_eq_true _ |>.mp h
    rw [if_neg h, h2, Bool.or_false]
    by_cases g0 : s.stage = "greeting"
    · rw [if_pos g0]
    rw [if_neg g0]
    by_cases g1 : s.stage = "full_name"
    · rw [if_pos g1]
    rw [if_neg g1]
    by_cases g2 : s.stage = "email"
    · rw [if_pos g2]
    rw [if_neg g2]
    by_cases g3 : s.stage = "phone"
    · rw [if_pos g3]
    rw [if_neg g3]
    by_cases g4 : s.stage = "experience"
    · rw [if_pos g4]
    rw [if_neg g4]
    by_cases g5 : s.stage = "position"
    · rw [if_pos g5]
    rw [if_neg g5]
    by_cases g6 : s.stage = "location"
    · rw [if_pos g6]
    rw [if_neg g6]
    by_cases g7 : s.stage = "tech_stack"
    · rw [if_pos g7]
    rw [if_neg g7]
    by_cases g8 : s.stage = "questioning"
    · rw [if_pos g8]
      rcases hpos : s.candidate_info.position with _ | p <;>
        rcases hloc : s.candidate_info.location with _ | q <;> rfl
    rw [if_neg g8]
    by_cases g9 : s.stage = "job_rec"
    · rw [if_pos g9]
    rw [if_neg g9]

/-- C5 (amended): after one gate step the ended flag is up iff it was
already up or the turn carried an exit command; reaching the terminal
stage done does not raise it (see the counterexample); and once the
flag is up the gate is the identity, so no further stage transitions
occur. -/
theorem C5_ended_iff_exit (llm : String → Except String String) (s t : SessionState)
    (input tin : String) (ht : t.end_chat = true) :
    ((step llm s input).end_chat = true ↔
      s.end_chat = true ∨ (input ≠ "" ∧ isExitCommand input = true)) ∧
    step llm t tin = t := by
  constructor
  · unfold step
    by_cases he : s.end_chat = true <;> by_cases hi : input = "" <;>
      simp [he, hi, chat_logic_end_chat]
  · simp [step, ht]

/-- C5 witness: one concrete gate step from the initial state, and the
gate as identity on an ended state. -/
theorem C5_ended_iff_exit_witness :
    ((step stubLLM initState "hello").end_chat = true ↔
      initState.end_chat = true ∨ ("hello" ≠ "" ∧ isExitCommand "hello" = true)) ∧
    step stubLLM { initState with end_chat := true } "more" = { initState with end_chat := true } :=
  C5_ended_iff_exit stubLLM initState { initState with end_chat := true } "hello" "more" rfl

/-- The end-to-end input sequence of the specification's scenario,
followed by two further inputs carrying the session to the terminal
stage. -/
def demoInputs : List String :=
  ["hi", "Jane Doe", "jane@x.com", "555-1234", "3 years", "Backend Engineer", "Austin",
   "Python, FastAPI", "ok", "ok"]

/-- C5 counterexample: driving a full session to the terminal stage
done (the specification scenario inputs followed by two more turns)
leaves ended false, refuting the claimed iff between ended and having
reached the terminal stage. -/
theorem C5_counterexample :
    (runChat stubLLM initState demoInputs).stage = "done" ∧
    (runChat stubLLM initState demoInputs).end_chat = false :=
  ⟨rfl, rfl⟩

/-- C7 counterexample: the claim quantifies over every post-terminal
input, but the exit command "exit" received at stage done is answered
with the goodbye reply, not the fixed clarification reply, and raises
the ended flag. -/
theorem C7_counterexample :
    (chat_logic stubLLM { initState with stage := "done" } "exit").reply ≠
      some "❓ Hmm, I didn’t quite get that. Could you please rephrase?" ∧
    (chat_logic stubLLM { initState with stage := "done" } "exit").state.end_chat = true :=
  ⟨by decide, rfl⟩

/-- C7 (amended): every non-exit input received at the terminal stage
done yields exactly the fixed clarification reply, with no profile
mutation, no stage change and no generation call: the returned state is
the input state. -/
theorem C7_post_terminal (llm : String → Except String String) (s : SessionState)
    (input : String) (hs : s.stage = "done") (h : isExitCommand input = false) :
    chat_logic llm s input =
      { state := s, reply := some "❓ Hmm, I didn’t quite get that. Could you please rephrase?",
        llm_calls := [] } := by
  simp [chat_logic, h, hs]

/-- C7 witness: "hello" at stage done returns the clarification reply
and the unchanged state. -/
theorem C7_post_terminal_witness :
    isExitCommand "hello" = false ∧
    chat_logic stubLLM { initState with stage := "done" } "hello" =
      { state := { initState with stage := "done" },
        reply := some "❓ Hmm, I didn’t quite get that. Could you please rephrase?",
        llm_calls := [] } :=
  ⟨by decide, C7_post_terminal stubLLM { initState with stage := "done" } "hello" rfl (by decide)⟩

/-- An LLM oracle whose failure message spans two lines, as str(e) of a
transport error may. -/
def multilineFailLLM : String → Except String String :=
  fun _ => .error "rate limit\nexceeded"

/-- C3 counterexample: when the generation call fails with a message
containing a newline, the stored sequence is the line split of the
error marker string and has two elements, not one, refuting the
single-element part of the claim. -/
theorem C3_counterexample :
    ((chat_logic multilineFailLLM { initState with stage := "tech_stack" } "Python").state.tech_questions).length ≠ 1 := by
  decide

/-- C3 (amended): in the tech_stack stage, exactly two generation
calls are made, both on prompts embedding the just-submitted tech-stack
string; the stored tech_questions and code_questions are the line
splits of the two generated texts, both texts are embedded in the
reply, both stored sequences are non-empty, and when a generation call
fails the corresponding sequence is the line split of the visible error
marker string (single-element whenever the failure message has no
newline) rather than an exception being raised. -/
theorem C3_tech_stack_generation (llm : String → Except String String) (s : SessionState)
    (input : String) (hs : s.stage = "tech_stack") (hexit : isExitCommand input = false) :
    (chat_logic llm s input).llm_calls =
      [technical_questions_prompt input, coding_questions_prompt input] ∧
    (chat_logic llm s input).state.tech_questions =
      pySplitNewline (generate_llm_response llm (technical_questions_prompt input)) ∧
    (chat_logic llm s input).state.code_questions =
      pySplitNewline (generate_llm_response llm (coding_questions_prompt input)) ∧
    (chat_logic llm s input).state.tech_questions ≠ [] ∧
    (chat_logic llm s input).state.code_questions ≠ [] ∧
    (chat_logic llm s input).reply =
      some ("🧪 Here are technical questions:\n\n" ++
        generate_llm_response llm (technical_questions_prompt input) ++
        "\n\n💡 Coding questions:\n\n" ++
        generate_llm_response llm (coding_questions_prompt input)) ∧
    (∀ e, llm (technical_questions_prompt input) = Except.error e →
      (chat_logic llm s input).state.tech_questions = pySplitNewline ("⚠️ Error: " ++ e)) ∧
    (∀ e, llm (coding_questions_prompt input) = Except.error e →
      (chat_logic llm s input).state.code_questions = pySplitNewline ("⚠️ Error: " ++ e)) := by
  refine ⟨?_, ?_, ?_, ?_, ?_, ?_, ?_, ?_⟩ <;>
    simp [chat_logic, hexit, hs, pySplitNewline_ne_nil]
  · intro e he
    simp [generate_llm_response, he]
  · intro e he
    simp [generate_llm_response, he]

/-- C3 witness: a failing oracle at stage tech_stack with input
"Python": the two prompts are recorded and the stored technical
questions are the line split of the error marker string. -/
theorem C3_tech_stack_generation_witness :
    (chat_logic multilineFailLLM { initState with stage := "tech_stack" } "Python").llm_calls =
      [technical_questions_prompt "Python", coding_questions_prompt "Python"] ∧
    (chat_logic multilineFailLLM { initState with stage := "tech_stack" } "Python").state.tech_questions
      = pySplitNewline ("⚠️ Error: " ++ "rate limit\nexceeded") := by
  have h := C3_tech_stack_generation multilineFailLLM { initState with stage := "tech_stack" }
    "Python" rfl (by decide)
  exact ⟨h.1, h.2.2.2.2.2.2.1 "rate limit\nexceeded" rfl⟩

/-- Helper: appending anything to a non-empty string is non-empty. -/
theorem str_append_ne_empty_left (a b : String) (h : a ≠ "") : a ++ b ≠ "" := by
  intro he
  apply h
  have hd : a.data ++ b.data = [] := by
    simpa [String.data_append] using congrArg String.data he
  obtain ⟨ha, _⟩ := List.append_eq_nil.mp hd
  exact String.ext (by rw [ha])

/-- Helper: the job generator always emits its three-template branch
plus the catch-all, four records in total. -/
theorem generate_quality_jobs_length (p l : String) :
    (generate_quality_jobs p l).length = 4 := by
  unfold generate_quality_jobs
  split_ifs <;> rfl

/-- Helper: the formatted list is never empty, so the ultra-reliable
fallback branch is dead and the result is the map over the four jobs. -/
theorem get_job_recommendations_eq (p l : String) :
    get_job_recommendations p l =
      ((generate_quality_jobs p l).take 5).map (format_job p l) := by
  have hne : ((generate_quality_jobs p l).take 5).map (format_job p l) ≠ [] := by
    intro hnil
    have h0 := congrArg List.length hnil
    rw [List.length_map, List.length_take, generate_quality_jobs_length] at h0
    simp at h0
  simp only [get_job_recommendations]
  rw [if_neg hne]

/-- Helper: every formatted listing starts with the bullet marker and
is in particular non-empty. -/
theorem format_job_ne_empty (p l : String) (j : Job) : format_job p l j ≠ "" := by
  simp only [format_job]
  repeat' apply str_append_ne_empty_left
  decide

/-- Helper: the catch-all record formats to a listing whose link part
is the generic Google job search for the position. -/
theorem format_job_catch_all (p l : String) :
    ∃ pre, format_job p l (catch_all_job p l) =
      pre ++ ("🔗 [Apply Here](" ++ googleJobsLink p ++ ")") := by
  simp only [format_job, catch_all_job]
  rw [ite_self]
  exact ⟨_, rfl⟩

/-- C4: for every position/location pair, including empty strings,
the job recommendation builder returns 4 to 5 listing strings (always
exactly four here), every returned listing is non-empty, and the last
one is the catch-all listing whose link is the generic web search for
"jobs " plus the position. The builder is a total Lean function, so it
can raise no exception. -/
theorem C4_recommendation_contract (p l entry : String)
    (hentry : entry ∈ get_job_recommendations p l) :
    4 ≤ (get_job_recommendations p l).length ∧
    (get_job_recommendations p l).length ≤ 5 ∧
    entry ≠ "" ∧
    (∃ pre, (get_job_recommendations p l).getLast? =
      some (pre ++ ("🔗 [Apply Here](" ++ googleJobsLink p ++ ")"))) := by
  have hlen : (get_job_recommendations p l).length = 4 := by
    rw [get_job_recommendations_eq, List.length_map, List.length_take,
      generate_quality_jobs_length]
    decide
  refine ⟨by omega, by omega, ?_, ?_⟩
  · rw [get_job_recommendations_eq] at hentry
    obtain ⟨j, _, hj⟩ := List.mem_map.mp hentry
    rw [← hj]
    exact format_job_ne_empty p l j
  · obtain ⟨pre, hpre⟩ := format_job_catch_all p l
    refine ⟨pre, ?_⟩
    rw [get_job_recommendations_eq, List.take_of_length_le (by rw [generate_quality_jobs_length]; decide),
      ← hpre]
    unfold generate_quality_jobs
    split_ifs <;> rw [List.map_append] <;> exact List.getLast?_concat _

/-- C6 counterexample: the claim names sales/marketing as its own
keyword-matched category, but the position "Sales Manager" matches
neither keyword set and receives exactly the generic fallback template
set - the same snippets as "Graphic Designer". -/
theorem C6_counterexample :
    (generate_quality_jobs "Sales Manager" "NY").map Job.snippet =
      (generate_quality_jobs "Graphic Designer" "NY").map Job.snippet ∧
    is_tech_position (pyLower "Sales Manager") = false ∧
    is_data_position (pyLower "Sales Manager") = false :=
  ⟨rfl, by decide, by decide⟩

/-- C6 (amended): the builder classifies the lower-cased position by
keyword match into one of exactly three template sets - engineering/
technical, data/analytics, and a generic fallback that also covers
sales/marketing positions; "Data Scientist" selects the data/analytics
set and "Graphic Designer" falls through to the generic set. -/
theorem C6_classification (p l : String) :
    ((generate_quality_jobs p l).map Job.snippet =
        (tech_mock_jobs p l).map Job.snippet ++ [(catch_all_job p l).snippet] ∨
      (generate_quality_jobs p l).map Job.snippet =
        (data_mock_jobs p l).map Job.snippet ++ [(catch_all_job p l).snippet] ∨
      (generate_quality_jobs p l).map Job.snippet =
        (other_mock_jobs p l).map Job.snippet ++ [(catch_all_job p l).snippet]) ∧
    is_data_position (pyLower "Data Scientist") = true ∧
    is_tech_position (pyLower "Data Scientist") = false ∧
    (generate_quality_jobs "Data Scientist" l).map Job.snippet =
      (data_mock_jobs "Data Scientist" l).map Job.snippet ++
        [(catch_all_job "Data Scientist" l).snippet] ∧
    is_tech_position (pyLower "Graphic Designer") = false ∧
    is_data_position (pyLower "Graphic Designer") = false ∧
    (generate_quality_jobs "Graphic Designer" l).map Job.snippet =
      (other_mock_jobs "Graphic Designer" l).map Job.snippet ++
        [(catch_all_job "Graphic Designer" l).snippet] := by
  refine ⟨?_, by decide, by decide, by rfl, by decide, by decide, by rfl⟩
  unfold generate_quality_jobs
  split_ifs
  · exact Or.inl rfl
  · exact Or.inr (Or.inl rfl)
  · exact Or.inr (Or.inr rfl)

/-- C8: the report assembly is a pure read-only snapshot of the
profile, the two question sequences and the recommendations: the
handler leaves the session state unchanged, re-invoking it reproduces
the identical report, and the report depends on nothing but those four
components. PDF byte serialization is the external rendering
collaborator (spec section 1) and is outside this model. -/
theorem C8_report_idempotent (s t : SessionState)
    (h1 : s.candidate_info = t.candidate_info) (h2 : s.tech_questions = t.tech_questions)
    (h3 : s.code_questions = t.code_questions)
    (h4 : s.job_recommendations = t.job_recommendations) :
    (export_handler s).1 = s ∧
    (export_handler (export_handler s).1).2 = (export_handler s).2 ∧
    export_report s = export_report t := by
  refine ⟨rfl, rfl, ?_⟩
  unfold export_report export_report_args export_pdf_lines
  rw [h1, h2, h3, h4]

/-- C8 witness: assembling twice from the initial state gives
identical reports, and a state differing only in stage yields the same
report. -/
theorem C8_report_idempotent_witness :
    (export_handler initState).1 = initState ∧
    (export_handler (export_handler initState).1).2 = (export_handler initState).2 ∧
    export_report initState = export_report { initState with stage := "done" } :=
  C8_report_idempotent initState { initState with stage := "done" } rfl rfl rfl rfl

/-- C9: the report handler substitutes the placeholder text for each
of the three question/recommendation sequences exactly when that stored
sequence is empty, so each argument handed to the report is non-empty
and the rendered report has no blank section. -/
theorem C9_empty_section_placeholders (s : SessionState) :
    (s.tech_questions = [] → (export_report_args s).1 = ["No technical questions generated."]) ∧
    (s.tech_questions ≠ [] → (export_report_args s).1 = s.tech_questions) ∧
    (s.code_questions = [] → (export_report_args s).2.1 = ["No coding questions generated."]) ∧
    (s.code_questions ≠ [] → (export_report_args s).2.1 = s.code_questions) ∧
    (s.job_recommendations = [] →
      (export_report_args s).2.2 = ["No job recommendations available."]) ∧
    (s.job_recommendations ≠ [] → (export_report_args s).2.2 = s.job_recommendations) ∧
    (export_report_args s).1 ≠ [] ∧ (export_report_args s).2.1 ≠ [] ∧
    (export_report_args s).2.2 ≠ [] ∧
    export_report s =
      export_pdf_lines s.candidate_info (export_report_args s).1 (export_report_args s).2.1
        (export_report_args s).2.2 := by
  by_cases h1 : s.tech_questions = [] <;> by_cases h2 : s.code_questions = [] <;>
    by_cases h3 : s.job_recommendations = [] <;>
      simp [export_report_args, export_report, h1, h2, h3]

/-- C9 witness: from the initial state (all three sequences empty)
all three placeholders are substituted. -/
theorem C9_empty_section_placeholders_witness :
    (export_report_args initState).1 = ["No technical questions generated."] ∧
    (export_report_args initState).2.1 = ["No coding questions generated."] ∧
    (export_report_args initState).2.2 = ["No job recommendations available."] := by
  have h := C9_empty_section_placeholders initState
  exact ⟨h.1 rfl, h.2.2.1 rfl, h.2.2.2.2.1 rfl⟩

set_option maxRecDepth 8192 in
/-- C4 witness: the contract instantiated at position "a" and
location "b", with the concrete head element as the member. -/
theorem C4_recommendation_contract_witness :
    4 ≤ (get_job_recommendations "a" "b").length ∧
    (get_job_recommendations "a" "b").length ≤ 5 ∧
    (get_job_recommendations "a" "b").headD "" ≠ "" ∧
    (∃ pre, (get_job_recommendations "a" "b").getLast? =
      some (pre ++ ("🔗 [Apply Here](" ++ googleJobsLink "a" ++ ")"))) :=
  C4_recommendation_contract "a" "b" ((get_job_recommendations "a" "b").headD "") (by decide)
